import Mathlib

/-!
Verification of the EasyAI knowledge-base workflow against its source.

The embedding below follows the repository sources:
- `src/ui/src/App.tsx` (the `useKnowledgeWorkflow` hook: workflow state,
  `nextStep` / `prevStep`, `canProceedToNextStep`, `startProcessing`);
- `src/unnamed/part_001` (the `knowledgeService` API client and the
  `WorkflowConfig` interface);
- `src/ui/src/components/knowledge/ConfigurationStep.tsx` (the configuration
  form: settings-mode guards on embedding and retrieval controls);
- `src/sql/knowledge_tables_migration.sql` (the persisted schema: documents,
  chunks, embeddings with their CHECK / UNIQUE / FK constraints).

Backend components that the repository only declares (the Python service
behind the HTTP API: config validation, the ConfigGuard lock, the
ChunkingEngine) are modelled from the specification; each such definition
carries a doc comment starting with `Modelled from the spec:`.
-/

namespace EasyAI

/-! ## Strategy enumerations (src/unnamed/part_001, WorkflowConfig interface) -/

/-- Chunking strategy union type from the `WorkflowConfig` TS interface:
`parent_child | general`. -/
inductive ChunkingStrategy where
  | parent_child
  | general
deriving DecidableEq, Repr

/-- Embedding strategy union type: `high_quality | economic`. -/
inductive EmbeddingStrategy where
  | high_quality
  | economic
deriving DecidableEq, Repr

/-- Retrieval strategy union type:
`vector_search | fulltext_search | hybrid_search`. -/
inductive RetrievalStrategy where
  | vector_search
  | fulltext_search
  | hybrid_search
deriving DecidableEq, Repr

/-! ## The WorkflowConfig interface (src/unnamed/part_001 lines 44-69)

TS optional fields (`field?: T`) are embedded as `Option T`; TS `number`
fields holding character counts are `Nat`, and `score_threshold` (a JS
float in [0,1]) is `ℚ`. -/

/-- `WorkflowConfig.chunking` section of the TS interface. -/
structure ChunkingSection where
  strategy : ChunkingStrategy
  separator : String
  max_length : Nat
  overlap_length : Nat
  remove_extra_whitespace : Bool
  remove_urls : Bool
  remove_emails : Bool
  parent_separator : Option String
  parent_max_length : Option Nat
  child_separator : Option String
  child_max_length : Option Nat
deriving DecidableEq, Repr

/-- `WorkflowConfig.embedding` section of the TS interface. -/
structure EmbeddingSection where
  strategy : EmbeddingStrategy
  model_name : Option String
deriving DecidableEq, Repr

/-- `WorkflowConfig.retrieval` section of the TS interface. -/
structure RetrievalSection where
  strategy : RetrievalStrategy
  top_k : Nat
  score_threshold : ℚ
  enable_rerank : Bool
  rerank_model : Option String
deriving DecidableEq, Repr

/-- The `WorkflowConfig` interface sent to
`PUT /knowledge-bases/:id/config` by `knowledgeService.updateWorkflowConfig`. -/
structure WorkflowConfig where
  chunking : ChunkingSection
  embedding : EmbeddingSection
  retrieval : RetrievalSection
deriving DecidableEq, Repr

/-! ## Spec-side configuration surface (spec.md section 6, for comparison)

A second set of definitions written from the specification words
(chunking, embedding and retrieval field enumerations) so that the source
interface can be compared against it. -/

/-- Spec section 6 chunking surface:
strategy parent_child|general, separator, max_length, overlap_length,
remove_extra_whitespace, remove_urls, remove_emails, parent_separator,
parent_max_length, child_separator, child_max_length. -/
structure SpecChunkingSurface where
  strategy : ChunkingStrategy
  separator : String
  max_length : Nat
  overlap_length : Nat
  remove_extra_whitespace : Bool
  remove_urls : Bool
  remove_emails : Bool
  parent_separator : Option String
  parent_max_length : Option Nat
  child_separator : Option String
  child_max_length : Option Nat
deriving DecidableEq, Repr

/-- Spec section 6 embedding surface: strategy high_quality|economic,
model_name. -/
structure SpecEmbeddingSurface where
  strategy : EmbeddingStrategy
  model_name : Option String
deriving DecidableEq, Repr

/-- Spec section 6 retrieval surface: strategy
vector_search|fulltext_search|hybrid_search, top_k, score_threshold,
enable_rerank, rerank_model. -/
structure SpecRetrievalSurface where
  strategy : RetrievalStrategy
  top_k : Nat
  score_threshold : ℚ
  enable_rerank : Bool
  rerank_model : Option String
deriving DecidableEq, Repr

/-- The configuration surface as enumerated by the spec. -/
structure SpecConfigSurface where
  chunking : SpecChunkingSurface
  embedding : SpecEmbeddingSurface
  retrieval : SpecRetrievalSurface
deriving DecidableEq, Repr

/-- Field-by-field translation of the source `WorkflowConfig` into the
spec-enumerated surface. -/
def workflowConfigToSpecSurface (c : WorkflowConfig) : SpecConfigSurface :=
  { chunking :=
      { strategy := c.chunking.strategy
        separator := c.chunking.separator
        max_length := c.chunking.max_length
        overlap_length := c.chunking.overlap_length
        remove_extra_whitespace := c.chunking.remove_extra_whitespace
        remove_urls := c.chunking.remove_urls
        remove_emails := c.chunking.remove_emails
        parent_separator := c.chunking.parent_separator
        parent_max_length := c.chunking.parent_max_length
        child_separator := c.chunking.child_separator
        child_max_length := c.chunking.child_max_length }
    embedding :=
      { strategy := c.embedding.strategy
        model_name := c.embedding.model_name }
    retrieval :=
      { strategy := c.retrieval.strategy
        top_k := c.retrieval.top_k
        score_threshold := c.retrieval.score_threshold
        enable_rerank := c.retrieval.enable_rerank
        rerank_model := c.retrieval.rerank_model } }

/-! ## Workflow hook state (src/ui/src/App.tsx, useKnowledgeWorkflow)

The hook keeps camelCase step-config interfaces (`ChunkingConfigStep`,
`EmbeddingConfigStep`, `RetrievalConfigStep`) plus wizard state
(`currentStep`, `knowledgeBaseId`, file upload results, `isProcessing`,
`processingResults`). -/

/-- One entry of `FileUploadResponse` as used by `canProceedToNextStep`
(only the `success` flag is inspected there). -/
structure FileUploadResult where
  success : Bool
  filename : String
deriving DecidableEq, Repr

/-- `ChunkingConfigStep` interface from the hook (camelCase; the four
parent/child fields are TS-optional). -/
structure ChunkingConfigStep where
  strategy : ChunkingStrategy
  separator : String
  maxLength : Nat
  overlapLength : Nat
  removeExtraWhitespace : Bool
  removeUrls : Bool
  removeEmails : Bool
  parentSeparator : Option String
  parentMaxLength : Option Nat
  childSeparator : Option String
  childMaxLength : Option Nat
deriving DecidableEq, Repr

/-- `EmbeddingConfigStep` interface from the hook. -/
structure EmbeddingConfigStep where
  strategy : EmbeddingStrategy
  modelName : Option String
deriving DecidableEq, Repr

/-- `RetrievalConfigStep` interface from the hook. -/
structure RetrievalConfigStep where
  strategy : RetrievalStrategy
  topK : Nat
  scoreThreshold : ℚ
  enableRerank : Bool
  rerankModel : Option String
deriving DecidableEq, Repr

/-- `KnowledgeWorkflowState` from the hook.  `processingResults : any` is
left abstract as an `Option Nat` token (only set/unset and identity of the
save result matter to the claims). -/
structure KnowledgeWorkflowState where
  currentStep : Nat
  knowledgeBaseId : Option String
  uploadResults : List FileUploadResult
  chunkingConfig : ChunkingConfigStep
  embeddingConfig : EmbeddingConfigStep
  retrievalConfig : RetrievalConfigStep
  isProcessing : Bool
  processingResults : Option Nat
deriving DecidableEq, Repr

/-- `defaultChunkingConfig` from the hook (the four parent/child fields are
not present in the literal, hence `none`). -/
def defaultChunkingConfig : ChunkingConfigStep :=
  { strategy := .general
    separator := "\n\n"
    maxLength := 1024
    overlapLength := 50
    removeExtraWhitespace := false
    removeUrls := false
    removeEmails := false
    parentSeparator := none
    parentMaxLength := none
    childSeparator := none
    childMaxLength := none }

/-- `defaultEmbeddingConfig` from the hook. -/
def defaultEmbeddingConfig : EmbeddingConfigStep :=
  { strategy := .high_quality, modelName := none }

/-- `defaultRetrievalConfig` from the hook. -/
def defaultRetrievalConfig : RetrievalConfigStep :=
  { strategy := .vector_search
    topK := 10
    scoreThreshold := 0
    enableRerank := false
    rerankModel := none }

/-- The initial `useState` value of the hook: `currentStep: 1`, empty
uploads, default configs, not processing, no results. -/
def initialWorkflowState (kbId : Option String) : KnowledgeWorkflowState :=
  { currentStep := 1
    knowledgeBaseId := kbId
    uploadResults := []
    chunkingConfig := defaultChunkingConfig
    embeddingConfig := defaultEmbeddingConfig
    retrievalConfig := defaultRetrievalConfig
    isProcessing := false
    processingResults := none }

/-- `nextStep`: `currentStep = Math.min(prev.currentStep + 1, 3)`. -/
def nextStep (st : KnowledgeWorkflowState) : KnowledgeWorkflowState :=
  { st with currentStep := min (st.currentStep + 1) 3 }

/-- `prevStep`: `currentStep = Math.max(prev.currentStep - 1, 1)`.
JS subtraction on a positive step is embedded as truncated `Nat`
subtraction; `max` with 1 makes the two agree on every reachable step. -/
def prevStep (st : KnowledgeWorkflowState) : KnowledgeWorkflowState :=
  { st with currentStep := max (st.currentStep - 1) 1 }

/-- A sequence of wizard navigation calls. -/
inductive StepOp where
  | next
  | prev
deriving DecidableEq, Repr

/-- Apply one navigation call. -/
def applyStepOp (st : KnowledgeWorkflowState) : StepOp → KnowledgeWorkflowState
  | .next => nextStep st
  | .prev => prevStep st

/-- Apply a sequence of navigation calls in order. -/
def applyStepOps (st : KnowledgeWorkflowState) : List StepOp → KnowledgeWorkflowState
  | [] => st
  | op :: ops => applyStepOps (applyStepOp st op) ops

/-- `canProceedToNextStep` from the hook: step 1 requires some successful
upload, step 2 always proceeds, step 3 (and any other value) does not. -/
def canProceedToNextStep (st : KnowledgeWorkflowState) : Bool :=
  match st.currentStep with
  | 1 => st.uploadResults.any (fun r => r.success)
  | 2 => true
  | 3 => false
  | _ => false

/-! ## startProcessing (src/ui/src/App.tsx lines 273-336)

`startProcessing` builds a `WorkflowConfig` object literal and mutates the
four parent/child keys into `config.chunking` only when the strategy is
`parent_child`.  A JS assignment creates the key even when the assigned
state value is `undefined`, so the built chunking section is embedded at
the key level: each conditional key is `Option (Option _)` where the outer
`none` means the key was never assigned and `some v` means the key holds
the (possibly undefined) state value `v`. -/

/-- The chunking section of the object literal built by `startProcessing`,
at JS key granularity. -/
structure BuiltChunkingConfig where
  strategy : ChunkingStrategy
  separator : String
  max_length : Nat
  overlap_length : Nat
  remove_extra_whitespace : Bool
  remove_urls : Bool
  remove_emails : Bool
  parent_separator : Option (Option String)
  parent_max_length : Option (Option Nat)
  child_separator : Option (Option String)
  child_max_length : Option (Option Nat)
deriving DecidableEq, Repr

/-- The full object literal built by `startProcessing` before it is passed
to `knowledgeService.updateWorkflowConfig`. -/
structure BuiltWorkflowConfig where
  chunking : BuiltChunkingConfig
  embedding : EmbeddingSection
  retrieval : RetrievalSection
deriving DecidableEq, Repr

/-- The config construction inside `startProcessing` (App.tsx 282-312):
base literal with seven chunking keys, embedding and retrieval sections,
then the four parent/child keys assigned only under
the parent_child strategy test. -/
def buildWorkflowConfig (st : KnowledgeWorkflowState) : BuiltWorkflowConfig :=
  { chunking :=
      { strategy := st.chunkingConfig.strategy
        separator := st.chunkingConfig.separator
        max_length := st.chunkingConfig.maxLength
        overlap_length := st.chunkingConfig.overlapLength
        remove_extra_whitespace := st.chunkingConfig.removeExtraWhitespace
        remove_urls := st.chunkingConfig.removeUrls
        remove_emails := st.chunkingConfig.removeEmails
        parent_separator :=
          if st.chunkingConfig.strategy = .parent_child then
            some st.chunkingConfig.parentSeparator
          else none
        parent_max_length :=
          if st.chunkingConfig.strategy = .parent_child then
            some st.chunkingConfig.parentMaxLength
          else none
        child_separator :=
          if st.chunkingConfig.strategy = .parent_child then
            some st.chunkingConfig.childSeparator
          else none
        child_max_length :=
          if st.chunkingConfig.strategy = .parent_child then
            some st.chunkingConfig.childMaxLength
          else none }
    embedding :=
      { strategy := st.embeddingConfig.strategy
        model_name := st.embeddingConfig.modelName }
    retrieval :=
      { strategy := st.retrievalConfig.strategy
        top_k := st.retrievalConfig.topK
        score_threshold := st.retrievalConfig.scoreThreshold
        enable_rerank := st.retrievalConfig.enableRerank
        rerank_model := st.retrievalConfig.rerankModel } }

/-- Outcome of the awaited `knowledgeService.updateWorkflowConfig` call:
either it resolves with a result or the promise rejects (throws). -/
inductive SaveOutcome where
  | resolved (result : Nat)
  | thrown
deriving DecidableEq, Repr

/-- `startProcessing` (App.tsx 273-336) as a state transformer given the
save outcome.  With no knowledge base id the function toasts and returns
before any `setState`.  Otherwise it sets `isProcessing: true`, builds the
config, awaits the save: on resolution it sets `isProcessing: false` and
`processingResults: result`; in the catch branch it sets
`isProcessing: false` and rethrows, leaving `processingResults` alone.
Only the final state after the async function settles is modelled. -/
def startProcessing (st : KnowledgeWorkflowState) (save : SaveOutcome) :
    KnowledgeWorkflowState :=
  match st.knowledgeBaseId with
  | none => st
  | some _ =>
    match save with
    | .resolved r => { st with isProcessing := false, processingResults := some r }
    | .thrown => { st with isProcessing := false }

/-! ## Hook update functions (src/ui/src/App.tsx lines 166-188)

`updateChunkingConfig`, `updateEmbeddingConfig` and `updateRetrievalConfig`
merge a TS `Partial<...>` into the corresponding section of the state via
object spread, leaving every other state field untouched.  A partial is a
record of optional fields; for TS-optional target fields the partial value
is itself optional. -/

/-- `Partial<EmbeddingConfigStep>`. -/
structure EmbeddingConfigUpdate where
  strategy : Option EmbeddingStrategy := none
  modelName : Option (Option String) := none
deriving DecidableEq, Repr

/-- `Partial<RetrievalConfigStep>`. -/
structure RetrievalConfigUpdate where
  strategy : Option RetrievalStrategy := none
  topK : Option Nat := none
  scoreThreshold : Option ℚ := none
  enableRerank : Option Bool := none
  rerankModel : Option (Option String) := none
deriving DecidableEq, Repr

/-- Object-spread merge `{ ...prev.embeddingConfig, ...partial }`. -/
def mergeEmbeddingConfig (c : EmbeddingConfigStep) (u : EmbeddingConfigUpdate) :
    EmbeddingConfigStep :=
  { strategy := u.strategy.getD c.strategy
    modelName := u.modelName.getD c.modelName }

/-- Object-spread merge `{ ...prev.retrievalConfig, ...partial }`. -/
def mergeRetrievalConfig (c : RetrievalConfigStep) (u : RetrievalConfigUpdate) :
    RetrievalConfigStep :=
  { strategy := u.strategy.getD c.strategy
    topK := u.topK.getD c.topK
    scoreThreshold := u.scoreThreshold.getD c.scoreThreshold
    enableRerank := u.enableRerank.getD c.enableRerank
    rerankModel := u.rerankModel.getD c.rerankModel }

/-- `updateEmbeddingConfig` from the hook (App.tsx 175-180). -/
def updateEmbeddingConfig (st : KnowledgeWorkflowState)
    (u : EmbeddingConfigUpdate) : KnowledgeWorkflowState :=
  { st with embeddingConfig := mergeEmbeddingConfig st.embeddingConfig u }

/-- `updateRetrievalConfig` from the hook (App.tsx 183-188). -/
def updateRetrievalConfig (st : KnowledgeWorkflowState)
    (u : RetrievalConfigUpdate) : KnowledgeWorkflowState :=
  { st with retrievalConfig := mergeRetrievalConfig st.retrievalConfig u }

/-! ## ConfigurationStep settings-mode guards
(src/ui/src/components/knowledge/ConfigurationStep.tsx)

The component receives `mode` (upload or settings).  Every embedding
control (high_quality / economic radios, model select) and every retrieval
control (strategy radios, rerank checkbox and select, Top K, score
threshold) is rendered with a disabled flag tied to settings mode and an
an onChange guarded by the mode not being settings,
so in settings mode no update is emitted. -/

/-- The `mode` prop of `ConfigurationStep`. -/
inductive ConfigMode where
  | upload
  | settings
deriving DecidableEq, Repr

/-- A user interaction with one of the retrieval controls. -/
inductive RetrievalControlEvent where
  | setStrategy (s : RetrievalStrategy)
  | setTopK (k : Nat)
  | setScoreThreshold (q : ℚ)
  | setEnableRerank (b : Bool)
  | setRerankModel (m : String)
deriving DecidableEq, Repr

/-- A user interaction with one of the embedding (index method) controls. -/
inductive EmbeddingControlEvent where
  | setStrategy (s : EmbeddingStrategy)
  | setModelName (m : String)
deriving DecidableEq, Repr

/-- The partial update a retrieval control passes to
`onRetrievalConfigChange`, or `none` when the settings-mode guard
suppresses it. -/
def retrievalControlUpdate (mode : ConfigMode) (ev : RetrievalControlEvent) :
    Option RetrievalConfigUpdate :=
  match mode with
  | .settings => none
  | .upload =>
    match ev with
    | .setStrategy s => some { strategy := some s }
    | .setTopK k => some { topK := some k }
    | .setScoreThreshold q => some { scoreThreshold := some q }
    | .setEnableRerank b => some { enableRerank := some b }
    | .setRerankModel m => some { rerankModel := some (some m) }

/-- The partial update an embedding control passes to
`onEmbeddingConfigChange`, or `none` when the settings-mode guard
suppresses it. -/
def embeddingControlUpdate (mode : ConfigMode) (ev : EmbeddingControlEvent) :
    Option EmbeddingConfigUpdate :=
  match mode with
  | .settings => none
  | .upload =>
    match ev with
    | .setStrategy s => some { strategy := some s }
    | .setModelName m => some { modelName := some (some m) }

/-- End-to-end effect of a retrieval control interaction on the workflow
state: the guarded onChange feeding `updateRetrievalConfig`. -/
def applyRetrievalControl (mode : ConfigMode) (st : KnowledgeWorkflowState)
    (ev : RetrievalControlEvent) : KnowledgeWorkflowState :=
  match retrievalControlUpdate mode ev with
  | none => st
  | some u => updateRetrievalConfig st u

/-- End-to-end effect of an embedding control interaction on the workflow
state: the guarded onChange feeding `updateEmbeddingConfig`. -/
def applyEmbeddingControl (mode : ConfigMode) (st : KnowledgeWorkflowState)
    (ev : EmbeddingControlEvent) : KnowledgeWorkflowState :=
  match embeddingControlUpdate mode ev with
  | none => st
  | some u => updateEmbeddingConfig st u

/-! ## Persisted schema (src/sql/knowledge_tables_migration.sql)

Rows are embedded field-for-field; the CHECK, UNIQUE and FOREIGN KEY
constraints become the well-formedness predicate and the success/failure
behaviour of the write operations. -/

/-- Constraint violations a write can produce. -/
inductive SqlError where
  | checkViolation
  | uniqueViolation
  | fkViolation
deriving DecidableEq, Repr

/-- The value set of the `documents.process_status` CHECK constraint
(lines 49-51). -/
def processStatusValues : List String :=
  ["pending", "processing", "completed", "failed"]

/-- Whether a status string passes the CHECK constraint. -/
def processStatusOk (s : String) : Bool :=
  processStatusValues.contains s

/-- A `documents` row (the columns the claims touch). -/
structure DocumentRow where
  id : Nat
  dataset_id : Nat
  process_status : String
  error_message : Option String
deriving DecidableEq, Repr

/-- An UPDATE of `documents.process_status`: the CHECK constraint rejects
any value outside the four-element set, otherwise the row is updated. -/
def updateProcessStatus (d : DocumentRow) (s : String) :
    Except SqlError DocumentRow :=
  if processStatusOk s then .ok { d with process_status := s }
  else .error .checkViolation

/-- A `chunks` row (lines 74-90): nullable `parent_chunk_id`, `chunk_type`
constrained to parent/child/flat, `chunk_level`, sequence index. -/
structure ChunkRow where
  id : Nat
  document_id : Nat
  dataset_id : Nat
  parent_chunk_id : Option Nat
  chunk_type : String
  chunk_level : Nat
  content : String
  index_in_doc : Nat
deriving DecidableEq, Repr

/-- An `embeddings` row (lines 110-118): `chunk_id` NOT NULL UNIQUE with a
foreign key into `chunks`, model id, `version >= 1`. -/
structure EmbeddingRow where
  id : Nat
  chunk_id : Nat
  embedding_data : Option String
  embedding_model_id : String
  version : Nat
deriving DecidableEq, Repr

/-- The two tables the embedding claims range over. -/
structure KnowledgeDb where
  chunks : List ChunkRow
  embeddings : List EmbeddingRow
deriving DecidableEq, Repr

/-- Schema well-formedness of the `embeddings` table: `chunk_id` UNIQUE,
the foreign key into `chunks`, and the `version >= 1` CHECK. -/
def EmbeddingsWf (db : KnowledgeDb) : Prop :=
  (db.embeddings.map (fun e => e.chunk_id)).Nodup ∧
  (∀ e ∈ db.embeddings, ∃ c ∈ db.chunks, c.id = e.chunk_id) ∧
  (∀ e ∈ db.embeddings, 1 ≤ e.version)

instance (db : KnowledgeDb) : Decidable (EmbeddingsWf db) := by
  unfold EmbeddingsWf; infer_instance

/-- INSERT into `embeddings` under the table constraints: the UNIQUE
constraint on `chunk_id` rejects a second embedding for the same chunk,
the FK rejects a dangling `chunk_id`, the CHECK rejects `version < 1`. -/
def insertEmbedding (db : KnowledgeDb) (e : EmbeddingRow) :
    Except SqlError KnowledgeDb :=
  if db.embeddings.any (fun x => x.chunk_id == e.chunk_id) then
    .error .uniqueViolation
  else if !(db.chunks.any (fun c => c.id == e.chunk_id)) then
    .error .fkViolation
  else if e.version < 1 then
    .error .checkViolation
  else
    .ok { db with embeddings := db.embeddings ++ [e] }

/-- Database-level effect of an embedding write attempt: a rejected INSERT
leaves the database unchanged. -/
def embedAttempt (db : KnowledgeDb) (e : EmbeddingRow) : KnowledgeDb :=
  match insertEmbedding db e with
  | .ok db2 => db2
  | .error _ => db

/-- Number of embedding rows referencing a chunk. -/
def embeddingCountFor (db : KnowledgeDb) (cid : Nat) : Nat :=
  (db.embeddings.filter (fun e => e.chunk_id == cid)).length

/-! ## Spec-modelled backend

The Python service behind `http://localhost:8000/api/knowledge` is not in
the repository snapshot; the client only forwards to it.  The parts of it
the claims depend on are modelled from spec.md and are marked as such. -/

/-- Errors of the config-write path, from the spec error taxonomy
(section 7). -/
inductive ConfigError where
  | validationError
  | configLocked
deriving DecidableEq, Repr

/-- Modelled from the spec: config validation "performed at every config
write regardless of state" (section 4.4) — the backend behind
`KnowledgeService.updateWorkflowConfig` is absent from src/.  Rules:
`overlap_length < max_length`; `child_max_length < parent_max_length` for
parent_child; `0 <= score_threshold <= 1`; `top_k >= 1`. -/
def chunkingSectionValid (c : ChunkingSection) : Bool :=
  decide (c.overlap_length < c.max_length) &&
    (match c.strategy with
     | .general => true
     | .parent_child =>
       match c.parent_max_length, c.child_max_length with
       | some p, some ch => decide (ch < p)
       | _, _ => false)

/-- Modelled from the spec: the retrieval-side validation rules of
section 4.4 (`0 <= score_threshold <= 1`; `top_k >= 1`). -/
def retrievalSectionValid (r : RetrievalSection) : Bool :=
  decide (0 ≤ r.score_threshold) && decide (r.score_threshold ≤ 1) &&
    decide (1 ≤ r.top_k)

/-- Modelled from the spec: the backend validation of a config write;
a violating config is rejected with `ValidationError`. -/
def validateWorkflowConfig (c : WorkflowConfig) : Except ConfigError Unit :=
  if chunkingSectionValid c.chunking && retrievalSectionValid c.retrieval then
    .ok ()
  else
    .error .validationError

/-- Modelled from the spec: the persistence step of a config write —
"rejected synchronously, nothing persisted" on `ValidationError`
(section 7).  Returns the stored config after the write together with the
error, if any. -/
def configWrite (store : Option WorkflowConfig) (c : WorkflowConfig) :
    Option WorkflowConfig × Option ConfigError :=
  match validateWorkflowConfig c with
  | .error e => (store, some e)
  | .ok _ => (some c, none)

/-- Modelled from the spec: the per-knowledge-base state the ConfigGuard
(section 4.4) locks over — embedding strategy, embedding model, and how
many chunks have been embedded under it.  The backend owning this state is
absent from src/. -/
structure KnowledgeBaseRecord where
  embeddingStrategy : EmbeddingStrategy
  embeddingModel : Option String
  embeddedChunkCount : Nat
deriving DecidableEq, Repr

/-- Modelled from the spec: the Locked state of the ConfigGuard state
machine — at least one chunk embedded under `high_quality`. -/
def ConfigGuardLocked (kb : KnowledgeBaseRecord) : Prop :=
  kb.embeddingStrategy = .high_quality ∧ 1 ≤ kb.embeddedChunkCount

instance (kb : KnowledgeBaseRecord) : Decidable (ConfigGuardLocked kb) := by
  unfold ConfigGuardLocked; infer_instance

/-- Modelled from the spec: the ConfigGuard check on an embedding-strategy
write — "attempting to set embedding strategy from high_quality back to
economic while Locked fails with ConfigLocked" (section 4.4). -/
def setEmbeddingStrategy (kb : KnowledgeBaseRecord) (s : EmbeddingStrategy)
    (m : Option String) : Except ConfigError KnowledgeBaseRecord :=
  if kb.embeddingStrategy = .high_quality ∧ 1 ≤ kb.embeddedChunkCount ∧
      s = .economic then
    .error .configLocked
  else
    .ok { kb with embeddingStrategy := s, embeddingModel := m }

/-- Modelled from the spec: applying an embedding-strategy request to the
stored record; a rejected request leaves the record unchanged
("rejected synchronously", section 7). -/
def applyEmbeddingStrategyRequest (kb : KnowledgeBaseRecord)
    (s : EmbeddingStrategy) (m : Option String) :
    KnowledgeBaseRecord × Option ConfigError :=
  match setEmbeddingStrategy kb s m with
  | .ok kb2 => (kb2, none)
  | .error e => (kb, some e)

/-- Modelled from the spec: marking a document failed records the error
detail alongside the `failed` status (section 3: "error detail when
failed"); the ingestion backend is absent from src/. -/
def markDocumentFailed (d : DocumentRow) (msg : String) : DocumentRow :=
  { d with process_status := "failed", error_message := some msg }

/-! ## Spec-modelled ChunkingEngine (spec.md section 4.2)

The chunking backend is absent from src/.  The engine is modelled from the
spec: `general` splits on the separator bounded by `max_length` and emits
a flat ordered sequence; `parent_child` first splits on
`parent_separator` bounded by `parent_max_length` (oversized units
hard-truncated into successive windows), then splits each parent on
`child_separator` bounded by `child_max_length` into children owned by
that parent.  Content-level overlap is not needed by the structural claim
and is not modelled. -/

/-- Structural role of an engine chunk, matching the
`chunks.chunk_type` value set of the schema. -/
inductive ChunkRole where
  | parent
  | child
  | flat
deriving DecidableEq, Repr

/-- A chunk produced by the engine: identity, owning document, role,
owner link, level, content and sequence index (spec section 3). -/
structure EngineChunk where
  chunkId : Nat
  documentId : Nat
  role : ChunkRole
  parentChunkId : Option Nat
  level : Nat
  content : String
  seqIndex : Nat
deriving DecidableEq, Repr

/-- Modelled from the spec: hard truncation of an oversized unit at the
character limit — successive windows of at most `maxLen` characters. -/
def chopChars (maxLen : Nat) (cs : List Char) : List (List Char) :=
  if cs = [] then []
  else if maxLen = 0 then [cs]
  else cs.take maxLen :: chopChars maxLen (cs.drop maxLen)
termination_by cs.length
decreasing_by
  simp only [List.length_drop]
  rename_i hne hz
  have hpos : 0 < cs.length := List.length_pos.mpr hne
  omega

/-- Modelled from the spec: split on the separator, then hard-truncate
each unit that exceeds the bound (section 4.2). -/
def splitBoundedPieces (sep : String) (maxLen : Nat) (text : String) :
    List String :=
  (text.splitOn sep).flatMap fun u =>
    (chopChars maxLen u.toList).map fun cs => String.mk cs

/-- Modelled from the spec: the `general` strategy produces a flat ordered
sequence; sequence index is assignment order. -/
def generalChunks (docId : Nat) (sep : String) (maxLen : Nat)
    (text : String) : List EngineChunk :=
  (splitBoundedPieces sep maxLen text).enum.map fun pr =>
    { chunkId := pr.1
      documentId := docId
      role := .flat
      parentChunkId := none
      level := 0
      content := pr.2
      seqIndex := pr.1 }

/-- Modelled from the spec: the child chunks of one parent, owned by it
(`parent_chunk_id` set to the owner, level 1). -/
def childChunksOf (docId pid baseId : Nat) (pieces : List String) :
    List EngineChunk :=
  pieces.enum.map fun pr =>
    { chunkId := baseId + pr.1
      documentId := docId
      role := .child
      parentChunkId := some pid
      level := 1
      content := pr.2
      seqIndex := pr.1 }

/-- Modelled from the spec: the `parent_child` strategy — one block per
parent piece: the parent chunk followed by its children, ids allocated
sequentially. -/
def buildParentBlocks (docId : Nat) (csep : String) (cmax : Nat) :
    List String → Nat → Nat → List EngineChunk
  | [], _, _ => []
  | p :: rest, nextId, seq =>
    let kidPieces := splitBoundedPieces csep cmax p
    let parentChunk : EngineChunk :=
      { chunkId := nextId
        documentId := docId
        role := .parent
        parentChunkId := none
        level := 0
        content := p
        seqIndex := seq }
    (parentChunk :: childChunksOf docId nextId (nextId + 1) kidPieces) ++
      buildParentBlocks docId csep cmax rest
        (nextId + 1 + kidPieces.length) (seq + 1)

/-- Modelled from the spec: `split(text, strategy)` dispatching on the
declared strategy.  Optional parent/child parameters fall back to the UI
placeholder defaults of `ConfigurationStep.tsx`. -/
def splitDocument (docId : Nat) (c : ChunkingSection) (text : String) :
    List EngineChunk :=
  match c.strategy with
  | .general => generalChunks docId c.separator c.max_length text
  | .parent_child =>
    buildParentBlocks docId
      (c.child_separator.getD "\n")
      (c.child_max_length.getD 512)
      (splitBoundedPieces (c.parent_separator.getD "\n\n")
        (c.parent_max_length.getD 1024) text)
      0 0

/-- Decidable form of the structural chunk invariant: flat and parent
chunks carry no owner link; every child chunk links to a parent-role chunk
of the same document present in the same output. -/
def chunkStructureOk (l : List EngineChunk) : Bool :=
  l.all fun ch =>
    match ch.role with
    | .flat => ch.parentChunkId == none
    | .parent => ch.parentChunkId == none
    | .child =>
      match ch.parentChunkId with
      | none => false
      | some pid =>
        l.any fun p =>
          p.chunkId == pid && p.role == ChunkRole.parent &&
            p.documentId == ch.documentId

/-! ## Concrete instances used by witnesses and counterexamples -/

/-- Inverse translation of `workflowConfigToSpecSurface`, used to show the
two surfaces coincide. -/
def specSurfaceToWorkflowConfig (c : SpecConfigSurface) : WorkflowConfig :=
  { chunking :=
      { strategy := c.chunking.strategy
        separator := c.chunking.separator
        max_length := c.chunking.max_length
        overlap_length := c.chunking.overlap_length
        remove_extra_whitespace := c.chunking.remove_extra_whitespace
        remove_urls := c.chunking.remove_urls
        remove_emails := c.chunking.remove_emails
        parent_separator := c.chunking.parent_separator
        parent_max_length := c.chunking.parent_max_length
        child_separator := c.chunking.child_separator
        child_max_length := c.chunking.child_max_length }
    embedding :=
      { strategy := c.embedding.strategy
        model_name := c.embedding.model_name }
    retrieval :=
      { strategy := c.retrieval.strategy
        top_k := c.retrieval.top_k
        score_threshold := c.retrieval.score_threshold
        enable_rerank := c.retrieval.enable_rerank
        rerank_model := c.retrieval.rerank_model } }

/-- A post-lock (settings-flow) workflow state with the default retrieval
tunables, used to exercise the settings-mode guards. -/
def settingsFlowState : KnowledgeWorkflowState :=
  { currentStep := 2
    knowledgeBaseId := some "kb-settings"
    uploadResults := []
    chunkingConfig := defaultChunkingConfig
    embeddingConfig :=
      { strategy := .high_quality, modelName := some "bce-embedding" }
    retrievalConfig := defaultRetrievalConfig
    isProcessing := false
    processingResults := none }

/-- A knowledge base record locked by one embedded chunk under
high_quality. -/
def lockedKbRecord : KnowledgeBaseRecord :=
  { embeddingStrategy := .high_quality
    embeddingModel := some "bce-embedding"
    embeddedChunkCount := 3 }

/-- A pending document row. -/
def pendingDocRow : DocumentRow :=
  { id := 1, dataset_id := 1, process_status := "pending",
    error_message := none }

/-- A database with one chunk and its single embedding. -/
def singleEmbeddedDb : KnowledgeDb :=
  { chunks :=
      [{ id := 10, document_id := 1, dataset_id := 1, parent_chunk_id := none,
         chunk_type := "flat", chunk_level := 0, content := "hello",
         index_in_doc := 0 }]
    embeddings :=
      [{ id := 1, chunk_id := 10, embedding_data := some "[0.1]",
         embedding_model_id := "bce-embedding", version := 1 }] }

/-- A workflow state at the configuration step whose chunking config
violates `overlap_length < max_length` (both 100), with a successful
upload and a knowledge base selected. -/
def violatingConfigState : KnowledgeWorkflowState :=
  { currentStep := 2
    knowledgeBaseId := some "kb-1"
    uploadResults := [{ success := true, filename := "a.txt" }]
    chunkingConfig :=
      { defaultChunkingConfig with maxLength := 100, overlapLength := 100 }
    embeddingConfig := defaultEmbeddingConfig
    retrievalConfig := defaultRetrievalConfig
    isProcessing := false
    processingResults := none }

/-- A violating `WorkflowConfig` as the backend would receive it. -/
def violatingWorkflowConfig : WorkflowConfig :=
  { chunking :=
      { strategy := .general
        separator := "\n\n"
        max_length := 100
        overlap_length := 100
        remove_extra_whitespace := false
        remove_urls := false
        remove_emails := false
        parent_separator := none
        parent_max_length := none
        child_separator := none
        child_max_length := none }
    embedding := { strategy := .high_quality, model_name := none }
    retrieval :=
      { strategy := .vector_search
        top_k := 10
        score_threshold := 0
        enable_rerank := false
        rerank_model := none } }

/-- The default-shaped general chunking section at small bounds. -/
def generalChunkingSection : ChunkingSection :=
  { strategy := .general
    separator := "\n\n"
    max_length := 1024
    overlap_length := 50
    remove_extra_whitespace := false
    remove_urls := false
    remove_emails := false
    parent_separator := none
    parent_max_length := none
    child_separator := none
    child_max_length := none }

/-! ## Claim theorems -/

/-- C5: the configuration surface accepted by the config write consists of
exactly the enumerated chunking/embedding/retrieval fields: the source
`WorkflowConfig` interface and the spec-enumerated surface are in
bijection (mutually inverse translations), and the three strategy types
admit exactly the enumerated values. -/
theorem workflowConfig_surface_exact :
    (∀ c : WorkflowConfig,
      specSurfaceToWorkflowConfig (workflowConfigToSpecSurface c) = c) ∧
    (∀ s : SpecConfigSurface,
      workflowConfigToSpecSurface (specSurfaceToWorkflowConfig s) = s) ∧
    (∀ s : ChunkingStrategy, s = .parent_child ∨ s = .general) ∧
    (∀ s : EmbeddingStrategy, s = .high_quality ∨ s = .economic) ∧
    (∀ s : RetrievalStrategy,
      s = .vector_search ∨ s = .fulltext_search ∨ s = .hybrid_search) := by
  refine ⟨fun c => rfl, fun s => rfl, ?_, ?_, ?_⟩
  · intro s; cases s
    · exact Or.inl rfl
    · exact Or.inr rfl
  · intro s; cases s
    · exact Or.inl rfl
    · exact Or.inr rfl
  · intro s; cases s
    · exact Or.inl rfl
    · exact Or.inr (Or.inl rfl)
    · exact Or.inr (Or.inr rfl)

/-- The step counter stays in range under one navigation call. -/
lemma applyStepOp_step_bounds (st : KnowledgeWorkflowState) (op : StepOp)
    (h1 : 1 ≤ st.currentStep) (h3 : st.currentStep ≤ 3) :
    1 ≤ (applyStepOp st op).currentStep ∧ (applyStepOp st op).currentStep ≤ 3 := by
  cases op with
  | next => simp only [applyStepOp, nextStep]; omega
  | prev => simp only [applyStepOp, prevStep]; omega

/-- The step counter stays in range under any sequence of navigation
calls. -/
lemma applyStepOps_step_bounds (ops : List StepOp) :
    ∀ st : KnowledgeWorkflowState, 1 ≤ st.currentStep → st.currentStep ≤ 3 →
      1 ≤ (applyStepOps st ops).currentStep ∧
      (applyStepOps st ops).currentStep ≤ 3 := by
  induction ops with
  | nil => intro st h1 h3; exact ⟨h1, h3⟩
  | cons op ops ih =>
    intro st h1 h3
    have hb := applyStepOp_step_bounds st op h1 h3
    exact ih (applyStepOp st op) hb.1 hb.2

/-- C9: the wizard step counter starts at 1 and every sequence of
`nextStep` / `prevStep` calls keeps it within [1, 3]; `nextStep` clamps at
3 and `prevStep` clamps at 1. -/
theorem wizard_step_in_range (kb : Option String) (ops : List StepOp) :
    (initialWorkflowState kb).currentStep = 1 ∧
    (1 ≤ (applyStepOps (initialWorkflowState kb) ops).currentStep ∧
      (applyStepOps (initialWorkflowState kb) ops).currentStep ≤ 3) ∧
    (∀ st : KnowledgeWorkflowState, st.currentStep = 3 →
      (nextStep st).currentStep = 3) ∧
    (∀ st : KnowledgeWorkflowState, st.currentStep = 1 →
      (prevStep st).currentStep = 1) := by
  refine ⟨rfl, applyStepOps_step_bounds ops _ (by simp [initialWorkflowState])
    (by simp [initialWorkflowState]), ?_, ?_⟩
  · intro st h; simp [nextStep, h]
  · intro st h; simp [prevStep, h]

/-- Witness for C9 at a concrete call sequence and a concrete clamped
state. -/
theorem wizard_step_in_range_witness :
    1 ≤ (applyStepOps (initialWorkflowState none)
        [StepOp.next, StepOp.next, StepOp.next, StepOp.prev]).currentStep ∧
    (applyStepOps (initialWorkflowState none)
        [StepOp.next, StepOp.next, StepOp.next, StepOp.prev]).currentStep ≤ 3 ∧
    (nextStep { initialWorkflowState none with currentStep := 3 }).currentStep
      = 3 :=
  ⟨(wizard_step_in_range none
      [StepOp.next, StepOp.next, StepOp.next, StepOp.prev]).2.1.1,
   (wizard_step_in_range none
      [StepOp.next, StepOp.next, StepOp.next, StepOp.prev]).2.1.2,
   (wizard_step_in_range none []).2.2.1
      { initialWorkflowState none with currentStep := 3 } rfl⟩

/-- C10: `startProcessing` is atomic with respect to its own state on
error: with no knowledge base id, or when the config save throws, the
final state has `isProcessing = false` and `processingResults` unchanged;
`processingResults` changes only when the save resolves. -/
theorem startProcessing_error_atomic (st : KnowledgeWorkflowState)
    (save : SaveOutcome) (hproc : st.isProcessing = false) :
    ((st.knowledgeBaseId = none ∨ save = .thrown) →
      (startProcessing st save).isProcessing = false ∧
      (startProcessing st save).processingResults = st.processingResults) ∧
    ((startProcessing st save).processingResults ≠ st.processingResults →
      ∃ r, save = .resolved r ∧ st.knowledgeBaseId ≠ none ∧
        (startProcessing st save).processingResults = some r) := by
  cases hkb : st.knowledgeBaseId with
  | none =>
    simp [startProcessing, hkb, hproc]
  | some kbId =>
    cases save with
    | resolved r =>
      refine ⟨?_, ?_⟩
      · rintro (h | h) <;> simp_all
      · intro _; exact ⟨r, rfl, by simp [hkb], by simp [startProcessing, hkb]⟩
    | thrown =>
      simp [startProcessing, hkb]

/-- Witness for C10: a state with no knowledge base id and a state whose
save throws both end unprocessed with results untouched. -/
theorem startProcessing_error_atomic_witness :
    (startProcessing (initialWorkflowState none) .thrown).isProcessing
        = false ∧
    (startProcessing (initialWorkflowState none) .thrown).processingResults
        = (initialWorkflowState none).processingResults ∧
    (startProcessing (initialWorkflowState (some "kb")) .thrown).isProcessing
        = false ∧
    (startProcessing (initialWorkflowState (some "kb"))
        .thrown).processingResults
      = (initialWorkflowState (some "kb")).processingResults :=
  ⟨((startProcessing_error_atomic (initialWorkflowState none) .thrown rfl).1
      (Or.inl rfl)).1,
   ((startProcessing_error_atomic (initialWorkflowState none) .thrown rfl).1
      (Or.inl rfl)).2,
   ((startProcessing_error_atomic (initialWorkflowState (some "kb")) .thrown
      rfl).1 (Or.inr rfl)).1,
   ((startProcessing_error_atomic (initialWorkflowState (some "kb")) .thrown
      rfl).1 (Or.inr rfl)).2⟩

/-- C8: the chunking section of the object built by `startProcessing`
carries the four parent/child keys exactly when the strategy is
`parent_child`; under `general` it consists of exactly the seven base
fields (the four conditional keys are never assigned). -/
theorem built_config_parent_child_fields (st : KnowledgeWorkflowState) :
    (((buildWorkflowConfig st).chunking.parent_separator.isSome ∧
      (buildWorkflowConfig st).chunking.parent_max_length.isSome ∧
      (buildWorkflowConfig st).chunking.child_separator.isSome ∧
      (buildWorkflowConfig st).chunking.child_max_length.isSome) ↔
      st.chunkingConfig.strategy = .parent_child) ∧
    (st.chunkingConfig.strategy = .general →
      (buildWorkflowConfig st).chunking =
        { strategy := .general
          separator := st.chunkingConfig.separator
          max_length := st.chunkingConfig.maxLength
          overlap_length := st.chunkingConfig.overlapLength
          remove_extra_whitespace := st.chunkingConfig.removeExtraWhitespace
          remove_urls := st.chunkingConfig.removeUrls
          remove_emails := st.chunkingConfig.removeEmails
          parent_separator := none
          parent_max_length := none
          child_separator := none
          child_max_length := none }) := by
  cases hs : st.chunkingConfig.strategy <;>
    simp [buildWorkflowConfig, hs, BuiltChunkingConfig.mk.injEq]

/-- Witness for C8 at the default (general) configuration and at a
parent_child configuration. -/
theorem built_config_parent_child_fields_witness :
    (buildWorkflowConfig (initialWorkflowState none)).chunking =
      { strategy := .general
        separator := "\n\n"
        max_length := 1024
        overlap_length := 50
        remove_extra_whitespace := false
        remove_urls := false
        remove_emails := false
        parent_separator := none
        parent_max_length := none
        child_separator := none
        child_max_length := none } ∧
    (buildWorkflowConfig { initialWorkflowState none with
        chunkingConfig :=
          { defaultChunkingConfig with
              strategy := .parent_child } }).chunking.parent_separator.isSome
    :=
  ⟨(built_config_parent_child_fields (initialWorkflowState none)).2 rfl,
   ((built_config_parent_child_fields { initialWorkflowState none with
        chunkingConfig :=
          { defaultChunkingConfig with
              strategy := .parent_child } }).1.mpr rfl).1⟩

/-- Counterexample to C3: in the post-lock settings configuration flow a
retrieval update (here Top K 10 → 5) does not change the stored retrieval
fields at all — the settings-mode guard drops it, so `top_k` stays 10
instead of becoming 5. -/
theorem retrieval_update_settings_counterexample :
    applyRetrievalControl .settings settingsFlowState
        (.setTopK 5) = settingsFlowState ∧
    settingsFlowState.retrievalConfig.topK = 10 ∧
    (applyRetrievalControl .settings settingsFlowState
        (.setTopK 5)).retrievalConfig.topK ≠ 5 := by
  refine ⟨rfl, rfl, ?_⟩
  decide

/-- C3 amended: in the post-lock (settings) configuration flow every
retrieval and embedding control is guarded read-only — no interaction
changes the workflow state; the `updateRetrievalConfig` hook function (reachable
only from the upload flow) changes exactly the retrieval section, every
other state field being left untouched, and each upload-mode retrieval
control writes exactly its own field. -/
theorem retrieval_readonly_after_lock :
    (∀ (st : KnowledgeWorkflowState) (ev : RetrievalControlEvent),
      applyRetrievalControl .settings st ev = st) ∧
    (∀ (st : KnowledgeWorkflowState) (ev : EmbeddingControlEvent),
      applyEmbeddingControl .settings st ev = st) ∧
    (∀ (st : KnowledgeWorkflowState) (u : RetrievalConfigUpdate),
      (updateRetrievalConfig st u).currentStep = st.currentStep ∧
      (updateRetrievalConfig st u).knowledgeBaseId = st.knowledgeBaseId ∧
      (updateRetrievalConfig st u).uploadResults = st.uploadResults ∧
      (updateRetrievalConfig st u).chunkingConfig = st.chunkingConfig ∧
      (updateRetrievalConfig st u).embeddingConfig = st.embeddingConfig ∧
      (updateRetrievalConfig st u).isProcessing = st.isProcessing ∧
      (updateRetrievalConfig st u).processingResults
        = st.processingResults) ∧
    (∀ (st : KnowledgeWorkflowState) (s : RetrievalStrategy),
      (applyRetrievalControl .upload st (.setStrategy s)).retrievalConfig
        = { st.retrievalConfig with strategy := s }) ∧
    (∀ (st : KnowledgeWorkflowState) (k : Nat),
      (applyRetrievalControl .upload st (.setTopK k)).retrievalConfig
        = { st.retrievalConfig with topK := k }) ∧
    (∀ (st : KnowledgeWorkflowState) (q : ℚ),
      (applyRetrievalControl .upload st
          (.setScoreThreshold q)).retrievalConfig
        = { st.retrievalConfig with scoreThreshold := q }) ∧
    (∀ (st : KnowledgeWorkflowState) (b : Bool),
      (applyRetrievalControl .upload st (.setEnableRerank b)).retrievalConfig
        = { st.retrievalConfig with enableRerank := b }) ∧
    (∀ (st : KnowledgeWorkflowState) (m : String),
      (applyRetrievalControl .upload st (.setRerankModel m)).retrievalConfig
        = { st.retrievalConfig with rerankModel := some m }) := by
  refine ⟨fun st ev => rfl, fun st ev => rfl, fun st u => ?_,
    fun st s => rfl, fun st k => rfl, fun st q => rfl, fun st b => rfl,
    fun st m => rfl⟩
  exact ⟨rfl, rfl, rfl, rfl, rfl, rfl, rfl⟩

/-- C2: while the ConfigGuard is Locked (at least one chunk embedded under
high_quality), a request to set the embedding strategy back to economic
fails with `ConfigLocked` and leaves the stored strategy and model
unchanged; additionally the settings-mode UI never emits an embedding
update at all. -/
theorem embedding_lock_blocks_economic (kb : KnowledgeBaseRecord)
    (m : Option String) (h : ConfigGuardLocked kb) :
    applyEmbeddingStrategyRequest kb .economic m
        = (kb, some .configLocked) ∧
    (applyEmbeddingStrategyRequest kb .economic m).1.embeddingStrategy
        = kb.embeddingStrategy ∧
    (applyEmbeddingStrategyRequest kb .economic m).1.embeddingModel
        = kb.embeddingModel ∧
    (∀ (st : KnowledgeWorkflowState) (ev : EmbeddingControlEvent),
      applyEmbeddingControl .settings st ev = st) := by
  obtain ⟨hq, hc⟩ := h
  have hreq : applyEmbeddingStrategyRequest kb .economic m
      = (kb, some .configLocked) := by
    simp [applyEmbeddingStrategyRequest, setEmbeddingStrategy, hq, hc]
  exact ⟨hreq, by rw [hreq], by rw [hreq], fun st ev => rfl⟩

/-- Witness for C2 at a concrete locked knowledge base. -/
theorem embedding_lock_blocks_economic_witness :
    ConfigGuardLocked lockedKbRecord ∧
    applyEmbeddingStrategyRequest lockedKbRecord .economic none
      = (lockedKbRecord, some .configLocked) :=
  ⟨by constructor <;> decide,
   (embedding_lock_blocks_economic lockedKbRecord none
      ⟨by decide, by decide⟩).1⟩

/-- C7: the processing status of a document ranges over exactly pending /
processing / completed / failed, every status write through the CHECK
constraint preserves membership in this set (violating writes are
rejected and change nothing), and marking a document failed records the
error detail alongside the `failed` status. -/
theorem document_status_domain :
    (∀ s : String, processStatusOk s = true ↔
      (s = "pending" ∨ s = "processing" ∨ s = "completed" ∨ s = "failed")) ∧
    (∀ (d : DocumentRow) (s : String) (d2 : DocumentRow),
      updateProcessStatus d s = .ok d2 →
        processStatusOk d2.process_status = true) ∧
    (∀ (d : DocumentRow) (s : String), processStatusOk s = false →
      updateProcessStatus d s = .error .checkViolation) ∧
    (∀ (d : DocumentRow) (msg : String),
      (markDocumentFailed d msg).process_status = "failed" ∧
      (markDocumentFailed d msg).error_message = some msg ∧
      processStatusOk (markDocumentFailed d msg).process_status = true) := by
  refine ⟨?_, ?_, ?_, ?_⟩
  · intro s
    simp [processStatusOk, processStatusValues]
  · intro d s d2 h
    unfold updateProcessStatus at h
    split at h
    next hok =>
      cases h
      simpa using hok
    next =>
      cases h
  · intro d s h
    unfold updateProcessStatus
    rw [if_neg]
    simp [h]
  · intro d msg
    refine ⟨rfl, rfl, ?_⟩
    simp [markDocumentFailed, processStatusOk, processStatusValues]

/-- Witness for C7: concrete status strings and a concrete failed
document. -/
theorem document_status_domain_witness :
    processStatusOk "processing" = true ∧
    updateProcessStatus pendingDocRow "nonsense"
      = .error .checkViolation ∧
    (markDocumentFailed pendingDocRow "empty content").process_status
      = "failed" ∧
    (markDocumentFailed pendingDocRow "empty content").error_message
      = some "empty content" :=
  ⟨(document_status_domain.1 "processing").mpr (Or.inr (Or.inl rfl)),
   document_status_domain.2.2.1 pendingDocRow "nonsense" (by decide),
   (document_status_domain.2.2.2 pendingDocRow "empty content").1,
   (document_status_domain.2.2.2 pendingDocRow "empty content").2.1⟩

/-- Members of a list whose keys are pairwise distinct are equal once
their keys agree. -/
lemma eq_of_mem_of_nodup_key {α β : Type} {key : α → β} {l : List α}
    (hnd : (l.map key).Nodup) {x y : α} (hx : x ∈ l) (hy : y ∈ l)
    (hk : key x = key y) : x = y :=
  List.inj_on_of_nodup_map hnd hx hy hk

/-- C6: under the embeddings-table constraints, any two embedding rows
referencing the same chunk are the same row, every embedding references an
existing chunk, and an embedding write attempt for a chunk that already
has its one embedding is rejected by the UNIQUE constraint, leaving the
count for that chunk at 1. -/
theorem embedding_unique_per_chunk (db : KnowledgeDb)
    (h : EmbeddingsWf db) :
    (∀ e1 ∈ db.embeddings, ∀ e2 ∈ db.embeddings,
      e1.chunk_id = e2.chunk_id → e1 = e2) ∧
    (∀ e ∈ db.embeddings, ∃ c ∈ db.chunks, c.id = e.chunk_id) ∧
    (∀ (e : EmbeddingRow) (cid : Nat), embeddingCountFor db cid = 1 →
      e.chunk_id = cid →
      insertEmbedding db e = .error .uniqueViolation ∧
      embeddingCountFor (embedAttempt db e) cid = 1) := by
  obtain ⟨hnd, hfk, _⟩ := h
  refine ⟨?_, hfk, ?_⟩
  · intro e1 h1 e2 h2 hk
    exact eq_of_mem_of_nodup_key hnd h1 h2 hk
  · intro e cid hcount hcid
    have hex : ∃ x ∈ db.embeddings, x.chunk_id = cid := by
      by_contra hno
      push_neg at hno
      have hfilter : db.embeddings.filter (fun x => x.chunk_id == cid)
          = [] := by
        apply List.filter_eq_nil_iff.mpr
        intro x hx
        simp [hno x hx]
      unfold embeddingCountFor at hcount
      rw [hfilter] at hcount
      simp at hcount
    have hany : db.embeddings.any (fun x => x.chunk_id == e.chunk_id)
        = true := by
      obtain ⟨x, hxmem, hxid⟩ := hex
      refine List.any_eq_true.mpr ⟨x, hxmem, ?_⟩
      simp [hxid, hcid]
    have hins : insertEmbedding db e = .error .uniqueViolation := by
      unfold insertEmbedding
      rw [if_pos hany]
    refine ⟨hins, ?_⟩
    unfold embedAttempt
    rw [hins]
    exact hcount

/-- Witness for C6: a re-embedding attempt against the concrete
single-embedding database is rejected and the count stays 1. -/
theorem embedding_unique_per_chunk_witness :
    EmbeddingsWf singleEmbeddedDb ∧
    insertEmbedding singleEmbeddedDb
        { id := 2, chunk_id := 10, embedding_data := some "[0.1]",
          embedding_model_id := "bce-embedding", version := 1 }
      = .error .uniqueViolation ∧
    embeddingCountFor (embedAttempt singleEmbeddedDb
        { id := 2, chunk_id := 10, embedding_data := some "[0.1]",
          embedding_model_id := "bce-embedding", version := 1 }) 10 = 1 :=
  ⟨by decide,
   ((embedding_unique_per_chunk singleEmbeddedDb (by decide)).2.2
      { id := 2, chunk_id := 10, embedding_data := some "[0.1]",
        embedding_model_id := "bce-embedding", version := 1 } 10
      (by decide) rfl).1,
   ((embedding_unique_per_chunk singleEmbeddedDb (by decide)).2.2
      { id := 2, chunk_id := 10, embedding_data := some "[0.1]",
        embedding_model_id := "bce-embedding", version := 1 } 10
      (by decide) rfl).2⟩

/-- Counterexample to C1: with `overlap_length = max_length = 100` the
workflow client still lets the configuration step complete
(`canProceedToNextStep` is true at step 2) and `startProcessing` submits
the violating values verbatim; when the save resolves, the client records
the result — no `ValidationError` is raised anywhere in the workflow
code. -/
theorem overlap_validation_counterexample :
    violatingConfigState.chunkingConfig.maxLength
        ≤ violatingConfigState.chunkingConfig.overlapLength ∧
    canProceedToNextStep violatingConfigState = true ∧
    (buildWorkflowConfig violatingConfigState).chunking.overlap_length
        = 100 ∧
    (buildWorkflowConfig violatingConfigState).chunking.max_length = 100 ∧
    (startProcessing violatingConfigState (.resolved 7)).processingResults
        = some 7 := by
  refine ⟨by decide, by decide, rfl, rfl, rfl⟩

/-- C1 amended: the workflow client itself performs no overlap/max-length
validation — at the configuration step `canProceedToNextStep` is
unconditionally true, so the step can always be completed, and
`startProcessing` submits the chunking values of the state unchanged;
rejection with `ValidationError`, with nothing persisted, is enforced
only by the backend config write (modelled from the spec). -/
theorem overlap_validation_is_backend_only (st : KnowledgeWorkflowState)
    (c : WorkflowConfig) (store : Option WorkflowConfig)
    (hstep : st.currentStep = 2)
    (hviol : c.chunking.max_length ≤ c.chunking.overlap_length) :
    canProceedToNextStep st = true ∧
    (buildWorkflowConfig st).chunking.overlap_length
        = st.chunkingConfig.overlapLength ∧
    (buildWorkflowConfig st).chunking.max_length
        = st.chunkingConfig.maxLength ∧
    validateWorkflowConfig c = .error .validationError ∧
    configWrite store c = (store, some .validationError) := by
  have hval : validateWorkflowConfig c = .error .validationError := by
    unfold validateWorkflowConfig
    rw [if_neg]
    intro hcontra
    have := Bool.and_elim_left hcontra
    unfold chunkingSectionValid at this
    have hlt := Bool.and_elim_left this
    simp at hlt
    omega
  refine ⟨?_, rfl, rfl, hval, ?_⟩
  · unfold canProceedToNextStep
    rw [hstep]
  · unfold configWrite
    rw [hval]

/-- Witness for the amended C1 at the concrete violating state and
config. -/
theorem overlap_validation_is_backend_only_witness :
    canProceedToNextStep violatingConfigState = true ∧
    configWrite none violatingWorkflowConfig
      = (none, some .validationError) :=
  ⟨(overlap_validation_is_backend_only violatingConfigState
      violatingWorkflowConfig none rfl (by decide)).1,
   (overlap_validation_is_backend_only violatingConfigState
      violatingWorkflowConfig none rfl (by decide)).2.2.2.2⟩

/-- Every chunk emitted by `childChunksOf` is a child of the given parent
in the given document. -/
lemma childChunksOf_shape (docId pid baseId : Nat) (pieces : List String) :
    ∀ ch ∈ childChunksOf docId pid baseId pieces,
      ch.role = .child ∧ ch.parentChunkId = some pid ∧
        ch.documentId = docId := by
  intro ch hch
  unfold childChunksOf at hch
  obtain ⟨pr, hmem, rfl⟩ := List.mem_map.mp hch
  exact ⟨rfl, rfl, rfl⟩

/-- Every chunk emitted by `generalChunks` is a flat chunk of the given
document with no owner link. -/
lemma generalChunks_shape (docId : Nat) (sep : String) (maxLen : Nat)
    (text : String) :
    ∀ ch ∈ generalChunks docId sep maxLen text,
      ch.role = .flat ∧ ch.parentChunkId = none ∧
        ch.documentId = docId := by
  intro ch hch
  unfold generalChunks at hch
  obtain ⟨pr, hmem, rfl⟩ := List.mem_map.mp hch
  exact ⟨rfl, rfl, rfl⟩

/-- Every chunk emitted by `buildParentBlocks` belongs to the given
document and is either a parent with no owner link or a child whose owner
link resolves to a parent chunk of the same output. -/
lemma buildParentBlocks_shape (docId : Nat) (csep : String) (cmax : Nat) :
    ∀ (ps : List String) (nid seq : Nat),
      ∀ ch ∈ buildParentBlocks docId csep cmax ps nid seq,
        ch.documentId = docId ∧
        ((ch.role = .parent ∧ ch.parentChunkId = none) ∨
         (ch.role = .child ∧
           ∃ p ∈ buildParentBlocks docId csep cmax ps nid seq,
             ch.parentChunkId = some p.chunkId ∧ p.role = .parent ∧
               p.documentId = docId)) := by
  intro ps
  induction ps with
  | nil =>
    intro nid seq ch hch
    simp [buildParentBlocks] at hch
  | cons p rest ih =>
    intro nid seq ch hch
    rw [buildParentBlocks] at hch
    simp only [List.mem_append, List.mem_cons] at hch
    rcases hch with (hhead | hkid) | hrest
    · subst hhead
      exact ⟨rfl, Or.inl ⟨rfl, rfl⟩⟩
    · obtain ⟨hrole, hpid, hdoc⟩ :=
        childChunksOf_shape docId nid (nid + 1)
          (splitBoundedPieces csep cmax p) ch hkid
      refine ⟨hdoc, Or.inr ⟨hrole, ?_⟩⟩
      refine ⟨⟨nid, docId, .parent, none, 0, p, seq⟩, ?_, hpid, rfl, rfl⟩
      rw [buildParentBlocks]
      simp only [List.mem_append, List.mem_cons]
      exact Or.inl (Or.inl (by trivial))
    · obtain ⟨hdoc, hdisj⟩ :=
        ih (nid + 1 + (splitBoundedPieces csep cmax p).length) (seq + 1)
          ch hrest
      refine ⟨hdoc, ?_⟩
      rcases hdisj with hpar | ⟨hrole, pp, hpmem, hpid, hprole, hpdoc⟩
      · exact Or.inl hpar
      · refine Or.inr ⟨hrole, pp, ?_, hpid, hprole, hpdoc⟩
        rw [buildParentBlocks]
        simp only [List.mem_append, List.mem_cons]
        exact Or.inr hpmem

/-- The decidable structural check follows from the per-chunk shape
facts. -/
lemma chunkStructureOk_of_shape (l : List EngineChunk)
    (h : ∀ ch ∈ l,
      (ch.role = .flat → ch.parentChunkId = none) ∧
      (ch.role = .parent → ch.parentChunkId = none) ∧
      (ch.role = .child → ∃ p ∈ l,
        ch.parentChunkId = some p.chunkId ∧ p.role = .parent ∧
          p.documentId = ch.documentId)) :
    chunkStructureOk l = true := by
  unfold chunkStructureOk
  refine List.all_eq_true.mpr ?_
  intro ch hch
  obtain ⟨hflat, hpar, hchild⟩ := h ch hch
  rcases hr : ch.role with _ | _ | _
  · simp only [hr]
    simp [hpar hr]
  · obtain ⟨p, hpmem, hpid, hprole, hpdoc⟩ := hchild hr
    simp only [hr, hpid]
    refine List.any_eq_true.mpr ⟨p, hpmem, ?_⟩
    simp [hprole, hpdoc]
  · simp only [hr]
    simp [hflat hr]

/-- C4: every chunk produced by the (spec-modelled) chunking engine
satisfies the structural invariant — flat chunks (and every chunk of a
general-strategy split) carry no `parent_chunk_id`, and every child chunk
links to a parent-role chunk of the same document in the same output, so
no orphan children exist. -/
theorem chunking_structure_invariant (docId : Nat) (c : ChunkingSection)
    (text : String) :
    chunkStructureOk (splitDocument docId c text) = true ∧
    (c.strategy = .general →
      (splitDocument docId c text).all
        (fun ch => ch.role == ChunkRole.flat && ch.parentChunkId == none)
        = true) := by
  constructor
  · unfold splitDocument
    cases hs : c.strategy
    · apply chunkStructureOk_of_shape
      intro ch hch
      obtain ⟨hdoc, hdisj⟩ := buildParentBlocks_shape docId
        (c.child_separator.getD "\n") (c.child_max_length.getD 512)
        (splitBoundedPieces (c.parent_separator.getD "\n\n")
          (c.parent_max_length.getD 1024) text) 0 0 ch hch
      rcases hdisj with ⟨hrole, hnone⟩ | ⟨hrole, p, hpmem, hpid, hprole, hpdoc⟩
      · refine ⟨fun hf => ?_, fun _ => hnone, fun hc => ?_⟩
        · rw [hrole] at hf; cases hf
        · rw [hrole] at hc; cases hc
      · refine ⟨fun hf => ?_, fun hp => ?_, fun _ => ?_⟩
        · rw [hrole] at hf; cases hf
        · rw [hrole] at hp; cases hp
        · exact ⟨p, hpmem, hpid, hprole, by rw [hpdoc, hdoc]⟩
    · apply chunkStructureOk_of_shape
      intro ch hch
      obtain ⟨hrole, hnone, _⟩ :=
        generalChunks_shape docId c.separator c.max_length text ch hch
      refine ⟨fun _ => hnone, fun _ => hnone, fun hc => ?_⟩
      rw [hrole] at hc; cases hc
  · intro hs
    unfold splitDocument
    rw [hs]
    refine List.all_eq_true.mpr ?_
    intro ch hch
    obtain ⟨hrole, hnone, _⟩ :=
      generalChunks_shape docId c.separator c.max_length text ch hch
    simp [hrole, hnone]

/-- Witness for C4 at a concrete document and the general strategy. -/
theorem chunking_structure_invariant_witness :
    chunkStructureOk (splitDocument 1 generalChunkingSection "hello") = true ∧
    (splitDocument 1 generalChunkingSection "hello").all
        (fun ch => ch.role == ChunkRole.flat && ch.parentChunkId == none)
      = true :=
  ⟨(chunking_structure_invariant 1 generalChunkingSection "hello").1,
   (chunking_structure_invariant 1 generalChunkingSection "hello").2 rfl⟩

end EasyAI
